import Mathlib

/-!
Verification of the per-turn behaviour of `ValueControl`
(src/src/commonControls/ValueControl.ts) as a shallow embedding.

State mutation is modelled by explicit state passing; methods that can throw
return `Except String`.  Collaborator modules that are not part of the
sources (Strings constants, InputUtil, Validation, ControlUtils) are
modelled from the specification and marked as such in their doc comments.
-/

namespace AskSdkControls

/-- Constant action slot-value ids (the Strings constants module is an
external collaborator; the ids are opaque tokens used both as action ids
and as the elicitation-action tag stored in state). -/
def ActionSet : String := "builtin_set"

/-- Constant action slot-value id for the change capability. -/
def ActionChange : String := "builtin_change"

/-- Constant feedback slot-value id for affirmative feedback. -/
def FeedbackAffirm : String := "builtin_affirm"

/-- Constant feedback slot-value id for negative feedback. -/
def FeedbackDisaffirm : String := "builtin_disaffirm"

/-- Name of the ConfirmValueAct class, as stored in
`state.lastInitiative.actName` by `confirmValue` and compared by
`isConfirmationAffirmed` and `isConfirmationDisaffirmed`. -/
def ConfirmValueActName : String := "ConfirmValueAct"

/-- Tracks the last act initiated from the control
(interface LastInitiativeState). -/
structure LastInitiativeState where
  actName : Option String
deriving DecidableEq, Repr

/-- State tracked by a ValueControl (class ValueControlState).  The TS
field `value : string` is unset until a value arrives, hence `Option`. -/
structure ValueControlState where
  value : Option String
  erMatch : Option Bool
  elicitationAction : Option String
  isValueConfirmed : Bool
  previousValue : Option String
  lastInitiative : LastInitiativeState
deriving DecidableEq, Repr

/-- The state produced by `new ValueControlState()` followed by the
constructor assignment `this.state.lastInitiative = \x7b\x7d`. -/
def initialValueControlState : ValueControlState :=
  { value := none
    erMatch := none
    elicitationAction := none
    isValueConfirmed := false
    previousValue := none
    lastInitiative := { actName := none } }

/-- Modelled from the spec: a normalized request (spec section 6) — an
intent name plus the fixed slot vocabulary feedback/action/target and one
value-bearing slot carrying an entity-resolution match indicator.  This is
the view of `ControlInput` that the ValueControl predicates consume
through InputUtil and the intent unpackers (not under src/). -/
structure ControlInput where
  intentName : String
  feedback : Option String
  action : Option String
  target : Option String
  valueStr : Option String
  valueType : Option String
  erMatch : Bool
deriving DecidableEq, Repr

/-- Typed failure reason returned by a validation function
(ValidationFailure in src/controls/Validation.ts, read through the act
payloads built in `validateAndAddActs`). -/
structure ValidationFailure where
  reasonCode : Option String
  renderedReason : Option String
deriving DecidableEq, Repr

/-- A validation function: a predicate over (state, input) returning pass
(`none`) or a typed failure reason (`some`). -/
def StateValidationFunction : Type :=
  ValueControlState → ControlInput → Option ValidationFailure

/-- Modelled from the spec: `evaluateValidationProp`
(src/controls/Validation.ts is not under src/): an ordered list of
predicates over (state, input); the first failure wins and is surfaced
with its reason. -/
def evaluateValidationProp (fns : List StateValidationFunction)
    (state : ValueControlState) (input : ControlInput) :
    Option ValidationFailure :=
  match fns with
  | [] => none
  | f :: rest =>
    match f state input with
    | some failure => some failure
    | none => evaluateValidationProp rest state input

/-- Props of a ValueControl after merging with defaults
(DeepRequired ValueControlProps).  The `required` and
`confirmationRequired` props may be booleans or functions of the input in
TS; `evaluateBooleanProp` applies them to the input, so both forms are
embedded as functions (a plain boolean is a constant function). -/
structure ValueControlProps where
  id : String
  slotType : String
  required : ControlInput → Bool
  confirmationRequired : ControlInput → Bool
  validation : List StateValidationFunction
  targets : List String
  actionsSet : List String
  actionsChange : List String

/-- System acts that a ValueControl can add to the result, with their
payload values (rendered-prompt fields are presentation only and are not
modelled). -/
inductive Act where
  | valueSet (value : Option String)
  | valueChanged (previousValue : String) (value : Option String)
  | invalidValue (value : Option String) (reasonCode : Option String)
      (renderedReason : Option String)
  | valueConfirmed (value : Option String)
  | valueDisconfirmed (value : Option String)
  | requestValue
  | requestChangedValue (currentValue : Option String)
  | confirmValue (value : Option String)
deriving DecidableEq, Repr

/-- Whether an act is an initiative act (the InitiativeActs module kinds:
RequestValueAct, RequestChangedValueAct, ConfirmValueAct). -/
def Act.isInitiativeAct : Act → Bool
  | .requestValue => true
  | .requestChangedValue _ => true
  | .confirmValue _ => true
  | _ => false

/-- Whether an act is a ConfirmValueAct. -/
def Act.isConfirmValueAct : Act → Bool
  | .confirmValue _ => true
  | _ => false

/-- Number of initiative acts in a result builder act list. -/
def countInitiativeActs (acts : List Act) : Nat :=
  acts.countP (fun a => a.isInitiativeAct)

/-- ControlResultBuilder.hasInitiativeAct on the accumulated act list. -/
def hasInitiativeAct (acts : List Act) : Bool :=
  acts.any (fun a => a.isInitiativeAct)

namespace InputUtil

/-- Modelled from the spec: `InputUtil.isIntent` (src/utils/InputUtil.ts
is not under src/): the input is an intent request with the given name. -/
def isIntent (input : ControlInput) (name : String) : Bool :=
  input.intentName = name

/-- Modelled from the spec: `InputUtil.isBareYes`: the input is a bare
yes intent (AMAZON.YesIntent). -/
def isBareYes (input : ControlInput) : Bool :=
  input.intentName = "AMAZON.YesIntent"

/-- Modelled from the spec: `InputUtil.isBareNo`: the input is a bare
no intent (AMAZON.NoIntent). -/
def isBareNo (input : ControlInput) : Bool :=
  input.intentName = "AMAZON.NoIntent"

/-- Modelled from the spec: the target slot is absent or one of the
targets registered for the control. -/
def targetIsMatchOrUndefined (target : Option String)
    (targets : List String) : Bool :=
  match target with
  | none => true
  | some t => targets.contains t

/-- Modelled from the spec: the feedback slot is absent or one of the
allowed feedback ids. -/
def feedbackIsMatchOrUndefined (feedback : Option String)
    (allowed : List String) : Bool :=
  match feedback with
  | none => true
  | some f => allowed.contains f

/-- Modelled from the spec: the action slot is present and its id is in
the list associated with the capability. -/
def actionIsMatch (action : Option String) (actions : List String) : Bool :=
  match action with
  | none => false
  | some a => actions.contains a

/-- Modelled from the spec: the action slot is absent. -/
def actionIsUndefined (action : Option String) : Bool :=
  action.isNone

/-- Modelled from the spec: the target slot is absent. -/
def targetIsUndefined (target : Option String) : Bool :=
  target.isNone

/-- Modelled from the spec: the feedback slot is absent. -/
def feedbackIsUndefined (feedback : Option String) : Bool :=
  feedback.isNone

/-- Modelled from the spec: the value-bearing slot carries a value. -/
def valueStrDefined (valueStr : Option String) : Bool :=
  valueStr.isSome

/-- Modelled from the spec: the value type reported by the intent matches
the slot type collected by the control. -/
def valueTypeMatch (valueType : Option String) (slotType : String) : Bool :=
  valueType = some slotType

/-- Modelled from the spec: `InputUtil.getValueResolution` extracts the
value string and the entity-resolution match indicator from the input
(only called on inputs whose value slot is defined). -/
def getValueResolution (input : ControlInput) : String × Bool :=
  (input.valueStr.getD "", input.erMatch)

end InputUtil

/-- Modelled from the spec: `ValueControlIntent.intentName(slotType)` is
the per-slot-type intent name slotType_ValueControlIntent. -/
def valueControlIntentName (slotType : String) : String :=
  slotType ++ "_ValueControlIntent"

/-- Modelled from the spec: `GeneralControlIntent.name`. -/
def generalControlIntentName : String :=
  "GeneralControlIntent"

/-- Tags for the built-in handler effects that `canHandle` can select
into `this.handleFunc` (the seven entries of standardInputHandlers). -/
inductive HandlerFunc where
  | setWithValue
  | changeWithValue
  | setWithoutValue
  | changeWithoutValue
  | bareValue
  | confirmationAffirmed
  | confirmationDisaffirmed
deriving DecidableEq, Repr

/-- Tags for the initiative effects that `canTakeInitiative` can select
into `this.initiativeFunc`. -/
inductive InitiativeFunc where
  | confirmValue
  | fixInvalidValue
  | elicitValue
deriving DecidableEq, Repr

/-- ValueControl.isSetWithValue: the input is the per-slot-type value
intent, with matching target or no target, matching value type, a defined
value, affirm/disaffirm-or-absent feedback, and an action id registered
for the set capability. -/
def isSetWithValue (props : ValueControlProps) (input : ControlInput) : Bool :=
  InputUtil.isIntent input (valueControlIntentName props.slotType) &&
  InputUtil.targetIsMatchOrUndefined input.target props.targets &&
  InputUtil.valueTypeMatch input.valueType props.slotType &&
  InputUtil.valueStrDefined input.valueStr &&
  InputUtil.feedbackIsMatchOrUndefined input.feedback [FeedbackAffirm, FeedbackDisaffirm] &&
  InputUtil.actionIsMatch input.action props.actionsSet

/-- ValueControl.isChangeWithValue: as isSetWithValue but for an action
id registered for the change capability. -/
def isChangeWithValue (props : ValueControlProps) (input : ControlInput) : Bool :=
  InputUtil.isIntent input (valueControlIntentName props.slotType) &&
  InputUtil.targetIsMatchOrUndefined input.target props.targets &&
  InputUtil.valueTypeMatch input.valueType props.slotType &&
  InputUtil.valueStrDefined input.valueStr &&
  InputUtil.feedbackIsMatchOrUndefined input.feedback [FeedbackAffirm, FeedbackDisaffirm] &&
  InputUtil.actionIsMatch input.action props.actionsChange

/-- ValueControl.isSetWithoutValue: a GeneralControlIntent with matching
or absent target, affirm/disaffirm-or-absent feedback and a set action. -/
def isSetWithoutValue (props : ValueControlProps) (input : ControlInput) : Bool :=
  InputUtil.isIntent input generalControlIntentName &&
  InputUtil.targetIsMatchOrUndefined input.target props.targets &&
  InputUtil.feedbackIsMatchOrUndefined input.feedback [FeedbackAffirm, FeedbackDisaffirm] &&
  InputUtil.actionIsMatch input.action props.actionsSet

/-- ValueControl.isChangeWithoutValue: a GeneralControlIntent with
matching or absent target, affirm/disaffirm-or-absent feedback and a
change action. -/
def isChangeWithoutValue (props : ValueControlProps) (input : ControlInput) : Bool :=
  InputUtil.isIntent input generalControlIntentName &&
  InputUtil.targetIsMatchOrUndefined input.target props.targets &&
  InputUtil.feedbackIsMatchOrUndefined input.feedback [FeedbackAffirm, FeedbackDisaffirm] &&
  InputUtil.actionIsMatch input.action props.actionsChange

/-- ValueControl.isBareValue: the per-slot-type value intent with no
feedback, no action, no target, a defined value, and a matching value
type. -/
def isBareValue (props : ValueControlProps) (input : ControlInput) : Bool :=
  InputUtil.isIntent input (valueControlIntentName props.slotType) &&
  InputUtil.feedbackIsUndefined input.feedback &&
  InputUtil.actionIsUndefined input.action &&
  InputUtil.targetIsUndefined input.target &&
  InputUtil.valueStrDefined input.valueStr &&
  InputUtil.valueTypeMatch input.valueType props.slotType

/-- ValueControl.isConfirmationAffirmed: a bare yes while the last
initiative act recorded in state is the confirmation request. -/
def isConfirmationAffirmed (state : ValueControlState) (input : ControlInput) : Bool :=
  InputUtil.isBareYes input &&
  (state.lastInitiative.actName = some ConfirmValueActName)

/-- ValueControl.isConfirmationDisaffirmed: a bare no while the last
initiative act recorded in state is the confirmation request. -/
def isConfirmationDisaffirmed (state : ValueControlState) (input : ControlInput) : Bool :=
  InputUtil.isBareNo input &&
  (state.lastInitiative.actName = some ConfirmValueActName)

/-- Predicate of each entry of ValueControl.standardInputHandlers. -/
def handlerPredicate (props : ValueControlProps) (state : ValueControlState)
    (input : ControlInput) : HandlerFunc → Bool
  | .setWithValue => isSetWithValue props input
  | .changeWithValue => isChangeWithValue props input
  | .setWithoutValue => isSetWithoutValue props input
  | .changeWithoutValue => isChangeWithoutValue props input
  | .bareValue => isBareValue props input
  | .confirmationAffirmed => isConfirmationAffirmed state input
  | .confirmationDisaffirmed => isConfirmationDisaffirmed state input

/-- Registration order of ValueControl.standardInputHandlers. -/
def standardInputHandlers : List HandlerFunc :=
  [ .setWithValue, .changeWithValue, .setWithoutValue, .changeWithoutValue,
    .bareValue, .confirmationAffirmed, .confirmationDisaffirmed ]

/-- The live control: merged props, dialog state, and the scratch fields
`this.handleFunc` and `this.initiativeFunc` set by the decision phases. -/
structure ValueControl where
  props : ValueControlProps
  state : ValueControlState
  handleFunc : Option HandlerFunc
  initiativeFunc : Option InitiativeFunc

/-- ValueControl.setValue: captures previousValue, stores the new value
and the entity-resolution flag, and clears the confirmation flag. -/
def setValue (state : ValueControlState) (value : String) (erMatch : Bool) :
    ValueControlState :=
  { state with
    previousValue := state.value
    value := some value
    erMatch := some erMatch
    isValueConfirmed := false }

/-- ValueControl.askElicitationQuestion: records the elicitation action
and adds RequestValueAct for the set action or RequestChangedValueAct for
the change action; an unknown elicitation action throws. -/
def askElicitationQuestion (state : ValueControlState) (elicitationAction : String)
    (acts : List Act) : Except String (ValueControlState × List Act) :=
  if elicitationAction = ActionSet then
    .ok ({ state with elicitationAction := some elicitationAction },
         acts ++ [Act.requestValue])
  else if elicitationAction = ActionChange then
    .ok ({ state with elicitationAction := some elicitationAction },
         acts ++ [Act.requestChangedValue state.value])
  else
    .error ("Unhandled. Unknown elicitationAction: " ++ elicitationAction)

/-- ValueControl.validateAndAddActs: records the elicitation action, runs
the validation list; on success adds ValueChangedAct for a change action
(throwing when previousValue is undefined) or ValueSetAct otherwise; on a
validation failure adds InvalidValueAct with the failure reason and then
asks the elicitation question for the same action. -/
def validateAndAddActs (props : ValueControlProps) (state : ValueControlState)
    (input : ControlInput) (elicitationAction : String) (acts : List Act) :
    Except String (ValueControlState × List Act) :=
  match evaluateValidationProp props.validation
      { state with elicitationAction := some elicitationAction } input with
  | none =>
    if elicitationAction = ActionChange then
      match state.previousValue with
      | some prev =>
        .ok ({ state with elicitationAction := some elicitationAction },
             acts ++ [Act.valueChanged prev state.value])
      | none =>
        .error "ValueChangedAct should only be used if there is an actual previous value"
    else
      .ok ({ state with elicitationAction := some elicitationAction },
           acts ++ [Act.valueSet state.value])
  | some failure =>
    askElicitationQuestion { state with elicitationAction := some elicitationAction }
      elicitationAction
      (acts ++ [Act.invalidValue state.value failure.reasonCode failure.renderedReason])

/-- ValueControl.handleSetWithValue: set the value from the input and
validate with the set action. -/
def handleSetWithValue (props : ValueControlProps) (state : ValueControlState)
    (input : ControlInput) (acts : List Act) :
    Except String (ValueControlState × List Act) :=
  let r := InputUtil.getValueResolution input
  validateAndAddActs props (setValue state r.1 r.2) input ActionSet acts

/-- ValueControl.handleChangeWithValue: set the value from the input and
validate with the change action. -/
def handleChangeWithValue (props : ValueControlProps) (state : ValueControlState)
    (input : ControlInput) (acts : List Act) :
    Except String (ValueControlState × List Act) :=
  let r := InputUtil.getValueResolution input
  validateAndAddActs props (setValue state r.1 r.2) input ActionChange acts

/-- ValueControl.handleSetWithoutValue: ask the set elicitation question. -/
def handleSetWithoutValue (state : ValueControlState) (acts : List Act) :
    Except String (ValueControlState × List Act) :=
  askElicitationQuestion state ActionSet acts

/-- ValueControl.handleChangeWithoutValue: ask the change elicitation
question. -/
def handleChangeWithoutValue (state : ValueControlState) (acts : List Act) :
    Except String (ValueControlState × List Act) :=
  askElicitationQuestion state ActionChange acts

/-- ValueControl.handleBareValue: set the value from the input and
validate with the active elicitation action, defaulting to set. -/
def handleBareValue (props : ValueControlProps) (state : ValueControlState)
    (input : ControlInput) (acts : List Act) :
    Except String (ValueControlState × List Act) :=
  let r := InputUtil.getValueResolution input
  let s := setValue state r.1 r.2
  validateAndAddActs props s input (s.elicitationAction.getD ActionSet) acts

/-- ValueControl.handleConfirmationAffirmed: clears the last initiative,
marks the value confirmed and adds ValueConfirmedAct. -/
def handleConfirmationAffirmed (state : ValueControlState) (acts : List Act) :
    Except String (ValueControlState × List Act) :=
  .ok ({ state with lastInitiative := { actName := none }, isValueConfirmed := true },
       acts ++ [Act.valueConfirmed state.value])

/-- ValueControl.handleConfirmationDisaffirmed: clears the confirmation
flag and the last initiative, adds ValueDisconfirmedAct and then a fresh
RequestValueAct. -/
def handleConfirmationDisaffirmed (state : ValueControlState) (acts : List Act) :
    Except String (ValueControlState × List Act) :=
  .ok ({ state with isValueConfirmed := false, lastInitiative := { actName := none } },
       acts ++ [Act.valueDisconfirmed state.value, Act.requestValue])

/-- Dispatch of a selected handler effect. -/
def runHandlerFunc (f : HandlerFunc) (props : ValueControlProps)
    (state : ValueControlState) (input : ControlInput) (acts : List Act) :
    Except String (ValueControlState × List Act) :=
  match f with
  | .setWithValue => handleSetWithValue props state input acts
  | .changeWithValue => handleChangeWithValue props state input acts
  | .setWithoutValue => handleSetWithoutValue state acts
  | .changeWithoutValue => handleChangeWithoutValue state acts
  | .bareValue => handleBareValue props state input acts
  | .confirmationAffirmed => handleConfirmationAffirmed state acts
  | .confirmationDisaffirmed => handleConfirmationDisaffirmed state acts

/-- ValueControl.wantsToConfirmValue: a value is present, not yet
confirmed, and confirmation is required. -/
def wantsToConfirmValue (props : ValueControlProps) (state : ValueControlState)
    (input : ControlInput) : Bool :=
  state.value.isSome && (state.isValueConfirmed = false) &&
    props.confirmationRequired input

/-- ValueControl.wantsToFixInvalidValue: a value is present and the
validation list does not pass on the current state. -/
def wantsToFixInvalidValue (props : ValueControlProps) (state : ValueControlState)
    (input : ControlInput) : Bool :=
  state.value.isSome &&
    (evaluateValidationProp props.validation state input).isSome

/-- ValueControl.wantsToElicitValue: no value is present and the control
is required. -/
def wantsToElicitValue (props : ValueControlProps) (state : ValueControlState)
    (input : ControlInput) : Bool :=
  state.value.isNone && props.required input

/-- ValueControl.canTakeInitiative: short-circuit disjunction of the
three wants checks; each check, when true, selects its initiative effect
into `this.initiativeFunc`, so only the first true check selects. -/
def canTakeInitiative (props : ValueControlProps) (state : ValueControlState)
    (input : ControlInput) : Option InitiativeFunc :=
  if wantsToConfirmValue props state input then some .confirmValue
  else if wantsToFixInvalidValue props state input then some .fixInvalidValue
  else if wantsToElicitValue props state input then some .elicitValue
  else none

/-- ValueControl.confirmValue: records ConfirmValueAct as the last
initiative and adds ConfirmValueAct with the current value. -/
def confirmValue (state : ValueControlState) (acts : List Act) :
    ValueControlState × List Act :=
  ({ state with lastInitiative := { actName := some ConfirmValueActName } },
   acts ++ [Act.confirmValue state.value])

/-- ValueControl.fixInvalidValue: validate and add acts with the change
action. -/
def fixInvalidValue (props : ValueControlProps) (state : ValueControlState)
    (input : ControlInput) (acts : List Act) :
    Except String (ValueControlState × List Act) :=
  validateAndAddActs props state input ActionChange acts

/-- ValueControl.elicitValue: ask the set elicitation question. -/
def elicitValue (state : ValueControlState) (acts : List Act) :
    Except String (ValueControlState × List Act) :=
  askElicitationQuestion state ActionSet acts

/-- ValueControl.takeInitiative: throws when `this.initiativeFunc` is not
set; otherwise runs the selected initiative effect. -/
def takeInitiative (props : ValueControlProps) (state : ValueControlState)
    (input : ControlInput) (initiativeFunc : Option InitiativeFunc)
    (acts : List Act) : Except String (ValueControlState × List Act) :=
  match initiativeFunc with
  | none =>
    .error "ValueControl: takeInitiative called but this.initiativeFunc is not set. canTakeInitiative() should be called first to set this.initiativeFunc."
  | some .confirmValue => .ok (confirmValue state acts)
  | some .fixInvalidValue => fixInvalidValue props state input acts
  | some .elicitValue => elicitValue state acts

/-- ValueControl.handle: throws when `this.handleFunc` is not set;
otherwise runs the selected handler, then, when the result holds no
initiative act and `canTakeInitiative` is true, takes initiative with the
freshly selected initiative effect. -/
def handle (props : ValueControlProps) (state : ValueControlState)
    (input : ControlInput) (handleFunc : Option HandlerFunc) (acts : List Act) :
    Except String (ValueControlState × List Act) :=
  match handleFunc with
  | none =>
    .error (input.intentName ++ " can not be handled by ValueControl.")
  | some f =>
    match runHandlerFunc f props state input acts with
    | .error e => .error e
    | .ok (s, acts1) =>
      if hasInitiativeAct acts1 = false then
        match canTakeInitiative props s input with
        | some g => takeInitiative props s input (some g) acts1
        | none => .ok (s, acts1)
      else
        .ok (s, acts1)

/-- Modelled from the spec: `evaluateInputHandlers`
(src/utils/ControlUtils.ts is not under src/): evaluates the ordered
handler predicates; when none match the decision is false; otherwise the
first matching handler (built-in registration order) is selected into
`this.handleFunc` and the decision is true. -/
def evaluateInputHandlers (c : ValueControl) (input : ControlInput) :
    Bool × ValueControl :=
  match standardInputHandlers.filter (fun h => handlerPredicate c.props c.state input h) with
  | [] => (false, c)
  | h :: _ => (true, { c with handleFunc := some h })

/-- ValueControl.canHandle: delegates to evaluateInputHandlers. -/
def ValueControl.canHandle (c : ValueControl) (input : ControlInput) :
    Bool × ValueControl :=
  evaluateInputHandlers c input

/-- ValueControl constructor: rejects the AMAZON.SearchQuery slot type;
otherwise builds the control with a fresh state whose lastInitiative is
empty. -/
def mkValueControl (props : ValueControlProps) : Except String ValueControl :=
  if props.slotType = "AMAZON.SearchQuery" then
    .error "AMAZON.SearchQuery cannot be used with ValueControl due to the special rules regarding its use."
  else
    .ok { props := props
          state := initialValueControlState
          handleFunc := none
          initiativeFunc := none }

/-- Modelled from the spec: the initiative decision in the spec's own
words — (a) confirmation required, value present, not yet confirmed: ask
to confirm; (b) value present but fails validation: re-elicit as a
change; (c) value absent and required: elicit as a set; first true wins,
else no initiative.  Written from the spec sentence for comparison with
`canTakeInitiative`, which is translated from the code. -/
def initiativeDecisionSpec (props : ValueControlProps) (state : ValueControlState)
    (input : ControlInput) : Option InitiativeFunc :=
  if props.confirmationRequired input && state.value.isSome && !state.isValueConfirmed then
    some .confirmValue
  else if state.value.isSome && (evaluateValidationProp props.validation state input).isSome then
    some .fixInvalidValue
  else if state.value.isNone && props.required input then
    some .elicitValue
  else
    none

/-- Whether a result carries a ConfirmValueAct among its acts (an error
result carries none). -/
def resultEmitsConfirmAct (r : Except String (ValueControlState × List Act)) : Bool :=
  match r with
  | .ok (_, acts) => acts.any (fun a => a.isConfirmValueAct)
  | .error _ => false

/-- Number of ValueChangedActs in an act list. -/
def countValueChangedActs (acts : List Act) : Nat :=
  acts.countP (fun a => match a with | Act.valueChanged _ _ => true | _ => false)

/-- A validation failure reason used by concrete test fixtures. -/
def fixtureReason : ValidationFailure :=
  { reasonCode := some "R", renderedReason := some "not allowed" }

/-- A validation function that rejects every value with fixtureReason. -/
def rejectAll : StateValidationFunction :=
  fun _ _ => some fixtureReason

/-- A validation function that accepts every value. -/
def acceptAll : StateValidationFunction :=
  fun _ _ => none

/-- Concrete props fixture: a required control with no validation and no
confirmation. -/
def fixtureProps : ValueControlProps :=
  { id := "playerName"
    slotType := "CUSTOM.name"
    required := fun _ => true
    confirmationRequired := fun _ => false
    validation := []
    targets := ["name"]
    actionsSet := [ActionSet]
    actionsChange := [ActionChange] }

/-- Concrete props fixture: no confirmation and a validation list that
rejects every value. -/
def rejectingProps : ValueControlProps :=
  { id := "r"
    slotType := "CUSTOM.name"
    required := fun _ => true
    confirmationRequired := fun _ => false
    validation := [rejectAll]
    targets := ["name"]
    actionsSet := [ActionSet]
    actionsChange := [ActionChange] }

/-- Concrete props fixture: confirmation required and a validation list
that rejects every value. -/
def confirmingRejectingProps : ValueControlProps :=
  { id := "c"
    slotType := "CUSTOM.name"
    required := fun _ => true
    confirmationRequired := fun _ => true
    validation := [rejectAll]
    targets := ["name"]
    actionsSet := [ActionSet]
    actionsChange := [ActionChange] }

/-- Concrete props fixture: no confirmation, ordered validation list
whose first entry passes and second rejects. -/
def orderedValidationProps : ValueControlProps :=
  { id := "v"
    slotType := "CUSTOM.name"
    required := fun _ => true
    confirmationRequired := fun _ => false
    validation := [acceptAll, rejectAll]
    targets := ["name"]
    actionsSet := [ActionSet]
    actionsChange := [ActionChange] }

/-- Concrete props fixture using the rejected AMAZON.SearchQuery slot
type. -/
def searchQueryProps : ValueControlProps :=
  { fixtureProps with slotType := "AMAZON.SearchQuery" }

/-- Concrete state fixture: an unconfirmed value with no previous value. -/
def fixtureState : ValueControlState :=
  { value := some "Bob"
    erMatch := some true
    elicitationAction := none
    isValueConfirmed := false
    previousValue := none
    lastInitiative := { actName := none } }

/-- Concrete input fixture: set the CUSTOM.name value to Mike. -/
def fixtureInput : ControlInput :=
  { intentName := "CUSTOM.name_ValueControlIntent"
    feedback := none
    action := some ActionSet
    target := some "name"
    valueStr := some "Mike"
    valueType := some "CUSTOM.name"
    erMatch := true }

/-- Concrete input fixture: a bare yes. -/
def bareYesInput : ControlInput :=
  { intentName := "AMAZON.YesIntent"
    feedback := none
    action := none
    target := none
    valueStr := none
    valueType := none
    erMatch := true }

section Theorems

/-- Helper: a passing head of the validation list is skipped. -/
theorem evaluateValidationProp_append_pass (state : ValueControlState)
    (input : ControlInput) (fns : List StateValidationFunction)
    (h : ∀ g ∈ fns, g state input = none) (rest : List StateValidationFunction) :
    evaluateValidationProp (fns ++ rest) state input =
      evaluateValidationProp rest state input := by
  induction fns with
  | nil => rfl
  | cons g gs ih =>
    have hg : g state input = none := h g (List.mem_cons_self g gs)
    simp only [List.cons_append, evaluateValidationProp, hg]
    exact ih (fun g' hg' => h g' (List.mem_cons_of_mem g hg'))

/-- C1: canTakeInitiative decides the initiative in the spec's fixed
order with the first true condition winning: (a) confirmation required,
value present, not confirmed; (b) value present but fails validation;
(c) value absent and required; otherwise no initiative is taken. -/
theorem canTakeInitiative_follows_spec_order (props : ValueControlProps)
    (state : ValueControlState) (input : ControlInput) :
    canTakeInitiative props state input = initiativeDecisionSpec props state input := by
  unfold canTakeInitiative initiativeDecisionSpec wantsToConfirmValue
    wantsToFixInvalidValue wantsToElicitValue
  rcases state with ⟨val, er, ea, conf, prev, li⟩
  cases val <;> cases conf <;>
    cases hc : props.confirmationRequired input <;>
    simp_all

/-- Helper equation: the set elicitation question adds RequestValueAct. -/
theorem askElicitationQuestion_set_eq (state : ValueControlState) (acts : List Act) :
    askElicitationQuestion state ActionSet acts =
      .ok ({ state with elicitationAction := some ActionSet },
           acts ++ [Act.requestValue]) :=
  rfl

/-- Helper equation: the change elicitation question adds
RequestChangedValueAct with the current value. -/
theorem askElicitationQuestion_change_eq (state : ValueControlState) (acts : List Act) :
    askElicitationQuestion state ActionChange acts =
      .ok ({ state with elicitationAction := some ActionChange },
           acts ++ [Act.requestChangedValue state.value]) :=
  rfl

/-- Helper: askElicitationQuestion never adds a ConfirmValueAct. -/
theorem askElicitationQuestion_no_confirm (state : ValueControlState)
    (elicitationAction : String) (acts : List Act)
    (h : acts.any (fun a => a.isConfirmValueAct) = false) :
    resultEmitsConfirmAct (askElicitationQuestion state elicitationAction acts) = false := by
  unfold askElicitationQuestion
  by_cases h1 : elicitationAction = ActionSet
  · rw [if_pos h1]
    show (acts ++ [Act.requestValue]).any (fun a => a.isConfirmValueAct) = false
    rw [List.any_append, h]
    rfl
  · rw [if_neg h1]
    by_cases h2 : elicitationAction = ActionChange
    · rw [if_pos h2]
      show (acts ++ [Act.requestChangedValue state.value]).any
        (fun a => a.isConfirmValueAct) = false
      rw [List.any_append, h]
      rfl
    · rw [if_neg h2]
      rfl

/-- Helper: validateAndAddActs never adds a ConfirmValueAct. -/
theorem validateAndAddActs_no_confirm (props : ValueControlProps)
    (state : ValueControlState) (input : ControlInput)
    (elicitationAction : String) (acts : List Act)
    (h : acts.any (fun a => a.isConfirmValueAct) = false) :
    resultEmitsConfirmAct
      (validateAndAddActs props state input elicitationAction acts) = false := by
  unfold validateAndAddActs
  cases hv : evaluateValidationProp props.validation
      { state with elicitationAction := some elicitationAction } input with
  | none =>
    by_cases h1 : elicitationAction = ActionChange
    · rw [if_pos h1]
      cases hp : state.previousValue with
      | none => rfl
      | some prev =>
        show (acts ++ [Act.valueChanged prev state.value]).any
          (fun a => a.isConfirmValueAct) = false
        rw [List.any_append, h]
        rfl
    · rw [if_neg h1]
      show (acts ++ [Act.valueSet state.value]).any
        (fun a => a.isConfirmValueAct) = false
      rw [List.any_append, h]
      rfl
  | some failure =>
    exact askElicitationQuestion_no_confirm _ _ _ (by rw [List.any_append, h]; rfl)

/-- C2 counterexample: at a concrete state whose value fails the
configured validation but which has confirmation required and the value
not yet confirmed, taking initiative does emit a ConfirmValueAct for the
invalid value. -/
theorem confirmValueAct_emitted_for_invalid_value :
    (evaluateValidationProp confirmingRejectingProps.validation fixtureState
        fixtureInput).isSome = true
    ∧ resultEmitsConfirmAct
        (takeInitiative confirmingRejectingProps fixtureState fixtureInput
          (canTakeInitiative confirmingRejectingProps fixtureState fixtureInput)
          []) = true := by
  exact ⟨rfl, rfl⟩

/-- C2 amended: when confirmation is not required for the input, taking
initiative on a state whose value fails validation never emits a
ConfirmValueAct. -/
theorem no_confirmValueAct_when_confirmation_not_required
    (props : ValueControlProps) (state : ValueControlState) (input : ControlInput)
    (_hfail : (evaluateValidationProp props.validation state input).isSome = true)
    (hnoconf : props.confirmationRequired input = false) :
    resultEmitsConfirmAct
      (takeInitiative props state input (canTakeInitiative props state input) [])
      = false := by
  have hconf : wantsToConfirmValue props state input = false := by
    simp [wantsToConfirmValue, hnoconf]
  unfold canTakeInitiative
  rw [hconf]
  simp only [Bool.false_eq_true, if_false]
  cases hfix : wantsToFixInvalidValue props state input with
  | true =>
    simp only [if_true]
    exact validateAndAddActs_no_confirm props state input ActionChange [] rfl
  | false =>
    simp only [Bool.false_eq_true, if_false]
    cases helic : wantsToElicitValue props state input with
    | true =>
      simp only [if_true]
      exact askElicitationQuestion_no_confirm state ActionSet [] rfl
    | false =>
      simp [takeInitiative, resultEmitsConfirmAct]

/-- Witness for the amended C2 at a concrete input: validation fails,
confirmation is not required, and no ConfirmValueAct is emitted. -/
theorem no_confirmValueAct_when_confirmation_not_required_witness :
    (evaluateValidationProp rejectingProps.validation fixtureState
        fixtureInput).isSome = true
    ∧ rejectingProps.confirmationRequired fixtureInput = false
    ∧ resultEmitsConfirmAct
        (takeInitiative rejectingProps fixtureState fixtureInput
          (canTakeInitiative rejectingProps fixtureState fixtureInput) []) = false :=
  ⟨rfl, rfl,
   no_confirmValueAct_when_confirmation_not_required rejectingProps fixtureState
     fixtureInput rfl rfl⟩

/-- C3: a bare yes (respectively bare no) is accepted into the
confirmation path exactly when the last initiative act recorded in
state.lastInitiative.actName is the confirmation request; in every other
state the predicates return false. -/
theorem confirmation_path_gated_by_lastInitiative (state : ValueControlState)
    (input : ControlInput) :
    (isConfirmationAffirmed state input = true ↔
      InputUtil.isBareYes input = true ∧
        state.lastInitiative.actName = some ConfirmValueActName)
    ∧ (isConfirmationDisaffirmed state input = true ↔
      InputUtil.isBareNo input = true ∧
        state.lastInitiative.actName = some ConfirmValueActName) := by
  constructor <;>
    simp [isConfirmationAffirmed, isConfirmationDisaffirmed]

/-- Witness for C3 at concrete inputs: a bare yes with the confirmation
request recorded is accepted, and the same bare yes without it is not. -/
theorem confirmation_path_gated_by_lastInitiative_witness :
    isConfirmationAffirmed
      { fixtureState with lastInitiative := { actName := some ConfirmValueActName } }
      bareYesInput = true
    ∧ isConfirmationAffirmed fixtureState bareYesInput = false := by
  constructor
  · exact (confirmation_path_gated_by_lastInitiative
      { fixtureState with lastInitiative := { actName := some ConfirmValueActName } }
      bareYesInput).1.mpr ⟨by decide, rfl⟩
  · have h := (confirmation_path_gated_by_lastInitiative fixtureState bareYesInput).1
    simp only [fixtureState] at h ⊢
    revert h
    decide

/-- C4: setValue clears the confirmation flag, captures the previous
value, stores the new value and records the entity-resolution flag. -/
theorem setValue_clears_confirmation_and_tracks_previous
    (state : ValueControlState) (v : String) (erMatch : Bool) :
    (setValue state v erMatch).isValueConfirmed = false
    ∧ (setValue state v erMatch).previousValue = state.value
    ∧ (setValue state v erMatch).value = some v
    ∧ (setValue state v erMatch).erMatch = some erMatch :=
  ⟨rfl, rfl, rfl, rfl⟩

/-- C5: with the change elicitation action, a ValueChangedAct is added
only when previousValue is defined; when validation passes for a change
while previousValue is undefined, validateAndAddActs throws rather than
adding the act. -/
theorem valueChangedAct_requires_previousValue
    (props : ValueControlProps) (state : ValueControlState) (input : ControlInput)
    (acts : List Act) (hprev : state.previousValue = none) :
    (evaluateValidationProp props.validation
        { state with elicitationAction := some ActionChange } input = none →
      validateAndAddActs props state input ActionChange acts =
        .error "ValueChangedAct should only be used if there is an actual previous value")
    ∧ (∀ s2 acts2,
        validateAndAddActs props state input ActionChange acts = .ok (s2, acts2) →
        countValueChangedActs acts2 = countValueChangedActs acts) := by
  constructor
  · intro hpass
    unfold validateAndAddActs
    rw [hpass]
    simp [hprev]
  · intro s2 acts2 hok
    cases hv : evaluateValidationProp props.validation
        { state with elicitationAction := some ActionChange } input with
    | none =>
      simp only [validateAndAddActs, hv] at hok
      simp [hprev] at hok
    | some failure =>
      simp only [validateAndAddActs, hv, askElicitationQuestion_change_eq] at hok
      simp only [Except.ok.injEq, Prod.mk.injEq] at hok
      obtain ⟨-, ha⟩ := hok
      subst ha
      simp [countValueChangedActs, List.countP_append, List.countP_cons]

/-- Witness for C5 at a concrete input: empty validation passes, the
previous value is undefined, and the change attempt throws the
programming error. -/
theorem valueChangedAct_requires_previousValue_witness :
    fixtureState.previousValue = none
    ∧ validateAndAddActs fixtureProps fixtureState fixtureInput ActionChange [] =
        .error "ValueChangedAct should only be used if there is an actual previous value" :=
  ⟨rfl,
   (valueChangedAct_requires_previousValue fixtureProps fixtureState fixtureInput
     [] rfl).1 rfl⟩

/-- C6: the ordered validation list surfaces the first failure; on a
failure, validateAndAddActs adds exactly an InvalidValueAct carrying that
failure reason followed by the re-elicitation act of the same action
(RequestValueAct for set, RequestChangedValueAct for change), and returns
normally rather than throwing. -/
theorem validation_first_failure_wins_and_reelicits
    (props : ValueControlProps) (state : ValueControlState) (input : ControlInput)
    (acts : List Act) :
    (∀ (fns1 : List StateValidationFunction) (f : StateValidationFunction)
        (fns2 : List StateValidationFunction) (r : ValidationFailure),
        props.validation = fns1 ++ f :: fns2 →
        (∀ g ∈ fns1, g state input = none) →
        f state input = some r →
        evaluateValidationProp props.validation state input = some r)
    ∧ (∀ failure : ValidationFailure,
        evaluateValidationProp props.validation
            { state with elicitationAction := some ActionSet } input = some failure →
        validateAndAddActs props state input ActionSet acts =
          .ok ({ state with elicitationAction := some ActionSet },
               acts ++
                 [Act.invalidValue state.value failure.reasonCode failure.renderedReason,
                  Act.requestValue]))
    ∧ (∀ failure : ValidationFailure,
        evaluateValidationProp props.validation
            { state with elicitationAction := some ActionChange } input = some failure →
        validateAndAddActs props state input ActionChange acts =
          .ok ({ state with elicitationAction := some ActionChange },
               acts ++
                 [Act.invalidValue state.value failure.reasonCode failure.renderedReason,
                  Act.requestChangedValue state.value])) := by
  refine ⟨?_, ?_, ?_⟩
  · intro fns1 f fns2 r hvs hall hf
    rw [hvs, evaluateValidationProp_append_pass state input fns1 hall]
    simp [evaluateValidationProp, hf]
  · intro failure hv
    simp only [validateAndAddActs, hv, askElicitationQuestion_set_eq]
    simp
  · intro failure hv
    simp only [validateAndAddActs, hv, askElicitationQuestion_change_eq]
    simp

/-- Witness for C6 at a concrete input: with a validation list whose
first entry passes and second rejects, the rejection reason is surfaced
and a set attempt yields exactly InvalidValueAct then RequestValueAct. -/
theorem validation_first_failure_wins_and_reelicits_witness :
    evaluateValidationProp orderedValidationProps.validation fixtureState
        fixtureInput = some fixtureReason
    ∧ validateAndAddActs orderedValidationProps fixtureState fixtureInput ActionSet [] =
        .ok ({ fixtureState with elicitationAction := some ActionSet },
             [Act.invalidValue fixtureState.value fixtureReason.reasonCode
                fixtureReason.renderedReason,
              Act.requestValue]) := by
  have h := validation_first_failure_wins_and_reelicits orderedValidationProps
    fixtureState fixtureInput []
  refine ⟨h.1 [acceptAll] rejectAll [] fixtureReason rfl ?_ rfl, ?_⟩
  · intro g hg
    rw [List.mem_singleton] at hg
    subst hg
    rfl
  · have h2 := h.2.1 fixtureReason rfl
    simpa using h2

/-- Helper: countInitiativeActs distributes over append. -/
theorem countInitiativeActs_append (l1 l2 : List Act) :
    countInitiativeActs (l1 ++ l2) = countInitiativeActs l1 + countInitiativeActs l2 := by
  simp [countInitiativeActs, List.countP_append]

/-- Helper: an act list with no initiative act has initiative count 0. -/
theorem countInitiativeActs_eq_zero (acts : List Act)
    (h : hasInitiativeAct acts = false) : countInitiativeActs acts = 0 := by
  simp only [hasInitiativeAct, List.any_eq_false] at h
  simp only [countInitiativeActs, List.countP_eq_zero]
  exact h

/-- Helper: a successful elicitation question adds exactly one
initiative act. -/
theorem askElicitationQuestion_count (state : ValueControlState)
    (elicitationAction : String) (acts : List Act)
    (s2 : ValueControlState) (acts2 : List Act)
    (h : askElicitationQuestion state elicitationAction acts = .ok (s2, acts2)) :
    countInitiativeActs acts2 = countInitiativeActs acts + 1 := by
  unfold askElicitationQuestion at h
  by_cases h1 : elicitationAction = ActionSet
  · rw [if_pos h1] at h
    simp only [Except.ok.injEq, Prod.mk.injEq] at h
    obtain ⟨-, ha⟩ := h
    subst ha
    rw [countInitiativeActs_append]
    rfl
  · rw [if_neg h1] at h
    by_cases h2 : elicitationAction = ActionChange
    · rw [if_pos h2] at h
      simp only [Except.ok.injEq, Prod.mk.injEq] at h
      obtain ⟨-, ha⟩ := h
      subst ha
      rw [countInitiativeActs_append]
      rfl
    · rw [if_neg h2] at h
      exact absurd h (by simp)

/-- Helper: a successful validateAndAddActs adds at most one initiative
act. -/
theorem validateAndAddActs_count (props : ValueControlProps)
    (state : ValueControlState) (input : ControlInput)
    (elicitationAction : String) (acts : List Act)
    (s2 : ValueControlState) (acts2 : List Act)
    (h : validateAndAddActs props state input elicitationAction acts = .ok (s2, acts2)) :
    countInitiativeActs acts2 ≤ countInitiativeActs acts + 1 := by
  cases hv : evaluateValidationProp props.validation
      { state with elicitationAction := some elicitationAction } input with
  | none =>
    by_cases h1 : elicitationAction = ActionChange
    · subst h1
      cases hp : state.previousValue with
      | none =>
        simp only [validateAndAddActs, hv] at h
        simp [hp] at h
      | some prev =>
        simp only [validateAndAddActs, hv] at h
        rw [hp] at h
        simp at h
        obtain ⟨-, ha⟩ := h
        subst ha
        have hx : countInitiativeActs [Act.valueChanged prev state.value] = 0 := rfl
        rw [countInitiativeActs_append, hx]
        omega
    · simp only [validateAndAddActs, hv, if_neg h1] at h
      simp only [Except.ok.injEq, Prod.mk.injEq] at h
      obtain ⟨-, ha⟩ := h
      subst ha
      rw [countInitiativeActs_append]
      simp [countInitiativeActs, Act.isInitiativeAct]
  | some failure =>
    simp only [validateAndAddActs, hv] at h
    have h2 := askElicitationQuestion_count _ _ _ _ _ h
    rw [countInitiativeActs_append] at h2
    have h3 : countInitiativeActs
      [Act.invalidValue state.value failure.reasonCode failure.renderedReason] = 0 := rfl
    omega

/-- Helper: every successful built-in handler adds at most one
initiative act. -/
theorem runHandlerFunc_count (f : HandlerFunc) (props : ValueControlProps)
    (state : ValueControlState) (input : ControlInput) (acts : List Act)
    (s2 : ValueControlState) (acts2 : List Act)
    (h : runHandlerFunc f props state input acts = .ok (s2, acts2)) :
    countInitiativeActs acts2 ≤ countInitiativeActs acts + 1 := by
  cases f with
  | setWithValue =>
    exact validateAndAddActs_count _ _ _ _ _ _ _ h
  | changeWithValue =>
    exact validateAndAddActs_count _ _ _ _ _ _ _ h
  | setWithoutValue =>
    simp only [runHandlerFunc, handleSetWithoutValue] at h
    have h2 := askElicitationQuestion_count _ _ _ _ _ h
    omega
  | changeWithoutValue =>
    simp only [runHandlerFunc, handleChangeWithoutValue] at h
    have h2 := askElicitationQuestion_count _ _ _ _ _ h
    omega
  | bareValue =>
    exact validateAndAddActs_count _ _ _ _ _ _ _ h
  | confirmationAffirmed =>
    simp only [runHandlerFunc, handleConfirmationAffirmed] at h
    simp only [Except.ok.injEq, Prod.mk.injEq] at h
    obtain ⟨-, ha⟩ := h
    subst ha
    rw [countInitiativeActs_append]
    simp [countInitiativeActs, Act.isInitiativeAct]
  | confirmationDisaffirmed =>
    simp only [runHandlerFunc, handleConfirmationDisaffirmed] at h
    simp only [Except.ok.injEq, Prod.mk.injEq] at h
    obtain ⟨-, ha⟩ := h
    subst ha
    rw [countInitiativeActs_append]
    simp [countInitiativeActs, Act.isInitiativeAct]

/-- Helper: a successful takeInitiative adds at most one initiative act. -/
theorem takeInitiative_count (props : ValueControlProps)
    (state : ValueControlState) (input : ControlInput)
    (initiativeFunc : Option InitiativeFunc) (acts : List Act)
    (s2 : ValueControlState) (acts2 : List Act)
    (h : takeInitiative props state input initiativeFunc acts = .ok (s2, acts2)) :
    countInitiativeActs acts2 ≤ countInitiativeActs acts + 1 := by
  cases initiativeFunc with
  | none => simp [takeInitiative] at h
  | some g =>
    cases g with
    | confirmValue =>
      simp only [takeInitiative, confirmValue] at h
      simp only [Except.ok.injEq, Prod.mk.injEq] at h
      obtain ⟨-, ha⟩ := h
      subst ha
      rw [countInitiativeActs_append]
      simp [countInitiativeActs, Act.isInitiativeAct]
    | fixInvalidValue =>
      exact validateAndAddActs_count _ _ _ _ _ _ _ h
    | elicitValue =>
      simp only [takeInitiative, elicitValue] at h
      have h2 := askElicitationQuestion_count _ _ _ _ _ h
      omega

/-- C7: starting from a result with no initiative act, every successful
handle produces a result with at most one initiative act: each handler
path adds at most one, and the post-handle initiative step runs only when
no initiative act is present yet. -/
theorem handle_result_at_most_one_initiative (props : ValueControlProps)
    (state : ValueControlState) (input : ControlInput)
    (handleFunc : Option HandlerFunc) (acts : List Act)
    (h0 : countInitiativeActs acts = 0) :
    ∀ s2 acts2, handle props state input handleFunc acts = .ok (s2, acts2) →
      countInitiativeActs acts2 ≤ 1 := by
  intro s2 acts2 h
  cases handleFunc with
  | none => simp [handle] at h
  | some f =>
    simp only [handle] at h
    revert h
    cases hr : runHandlerFunc f props state input acts with
    | error e => intro h; simp at h
    | ok p =>
      obtain ⟨s1, acts1⟩ := p
      intro h
      simp only [] at h
      have hc1 : countInitiativeActs acts1 ≤ 1 := by
        have h2 := runHandlerFunc_count f props state input acts s1 acts1 hr
        omega
      by_cases hi : hasInitiativeAct acts1 = false
      · rw [if_pos hi] at h
        have hz : countInitiativeActs acts1 = 0 := countInitiativeActs_eq_zero acts1 hi
        revert h
        cases hti : canTakeInitiative props s1 input with
        | none =>
          intro h
          simp only [Except.ok.injEq, Prod.mk.injEq] at h
          obtain ⟨-, ha⟩ := h
          subst ha
          omega
        | some g =>
          intro h
          have h2 := takeInitiative_count props s1 input (some g) acts1 s2 acts2 h
          omega
      · rw [if_neg hi] at h
        simp only [Except.ok.injEq, Prod.mk.injEq] at h
        obtain ⟨-, ha⟩ := h
        subst ha
        exact hc1

/-- Witness for C7 at a concrete input: a set-with-value turn on an empty
result ends with a single ValueSetAct and no initiative act. -/
theorem handle_result_at_most_one_initiative_witness :
    countInitiativeActs ([] : List Act) = 0
    ∧ handle fixtureProps initialValueControlState fixtureInput
        (some .setWithValue) [] =
      .ok ({ initialValueControlState with
              value := some "Mike"
              erMatch := some true
              isValueConfirmed := false
              previousValue := none
              elicitationAction := some ActionSet },
           [Act.valueSet (some "Mike")])
    ∧ countInitiativeActs [Act.valueSet (some "Mike")] ≤ 1 := by
  refine ⟨rfl, rfl, ?_⟩
  exact handle_result_at_most_one_initiative fixtureProps initialValueControlState
    fixtureInput (some .setWithValue) [] rfl _ [Act.valueSet (some "Mike")] rfl

/-- C9: canHandle is idempotent: a second call without an intervening
handle returns the same decision and the same selected handler, and the
first call leaves the dialog state unchanged. -/
theorem canHandle_idempotent (c : ValueControl) (input : ControlInput) :
    (c.canHandle input).2.canHandle input =
      ((c.canHandle input).1, (c.canHandle input).2)
    ∧ (c.canHandle input).2.state = c.state := by
  unfold ValueControl.canHandle evaluateInputHandlers
  cases hm : standardInputHandlers.filter
      (fun h => handlerPredicate c.props c.state input h) with
  | nil => constructor <;> simp [hm]
  | cons h t => constructor <;> simp [hm]

/-- C8: calling handle with no previously selected handler throws and
adds no acts, and takeInitiative with no previously selected initiative
effect throws as well. -/
theorem dispatch_misuse_throws (props : ValueControlProps)
    (state : ValueControlState) (input : ControlInput) (acts : List Act) :
    handle props state input none acts =
      .error (input.intentName ++ " can not be handled by ValueControl.")
    ∧ takeInitiative props state input none acts =
      .error "ValueControl: takeInitiative called but this.initiativeFunc is not set. canTakeInitiative() should be called first to set this.initiativeFunc." :=
  ⟨rfl, rfl⟩

/-- C10: the constructor rejects the AMAZON.SearchQuery slot type; for
every other slot type it succeeds with lastInitiative empty and the
confirmation flag false. -/
theorem constructor_rejects_searchQuery (props : ValueControlProps) :
    (props.slotType = "AMAZON.SearchQuery" →
      mkValueControl props =
        .error "AMAZON.SearchQuery cannot be used with ValueControl due to the special rules regarding its use.")
    ∧ (props.slotType ≠ "AMAZON.SearchQuery" →
      mkValueControl props =
        .ok { props := props
              state := initialValueControlState
              handleFunc := none
              initiativeFunc := none }
      ∧ initialValueControlState.lastInitiative = { actName := none }
      ∧ initialValueControlState.isValueConfirmed = false) := by
  constructor
  · intro h
    simp [mkValueControl, h]
  · intro h
    refine ⟨?_, rfl, rfl⟩
    simp [mkValueControl, h]

/-- Witness for C10 at concrete props: construction fails for
AMAZON.SearchQuery and succeeds for CUSTOM.name. -/
theorem constructor_rejects_searchQuery_witness :
    mkValueControl searchQueryProps =
      .error "AMAZON.SearchQuery cannot be used with ValueControl due to the special rules regarding its use."
    ∧ mkValueControl fixtureProps =
      .ok { props := fixtureProps
            state := initialValueControlState
            handleFunc := none
            initiativeFunc := none } :=
  ⟨(constructor_rejects_searchQuery searchQueryProps).1 rfl,
   ((constructor_rejects_searchQuery fixtureProps).2 (by decide)).1⟩

end Theorems

end AskSdkControls
